import Mathlib

/-!
Shallow embedding of the HTTP test-harness core of the repository
(`test-automation/support/builders/base-builder.ts`,
`test-automation/support/builders/test-helper-builder.ts`,
`test-automation/support/api-client.ts` (`ApiGateway`),
`test-automation/support/world.ts`) and of the user service
(`src/main/java/com/example/demo/service/UserService.java`,
`src/main/java/com/example/demo/service/ProfileValidationService.java`).

Conventions of the embedding:
* An axios call is modelled by its outcome: `Except AxiosError (AxiosResponse T)`,
  where `.error` is a thrown `AxiosError` and `.ok` a resolved response.
* A retried operation (`requestFn`) is modelled as a function from the attempt
  index (0-based) to the outcome of that attempt.
* Wall-clock timestamps (`new Date().toISOString()`) are passed in as the
  `now` argument; elapsed time in the poller is measured in milliseconds with
  each poll attempt taking no time and each sleep taking exactly the interval.
* JavaScript `try/catch` blocks appear as `match` on the `Except` outcome; a
  function that can still reject is typed `Except AxiosError _`, so a result
  that is always `.ok _` is one that never rejects.
-/

/-- Error body shape of `ErrorResponse` from the generated client: the fields
synthesized by `BaseBuilder.handleError` / `ApiGateway.handleAxiosError`
(`validationErrors` is optional and never produced by those paths, so it is
omitted here). -/
structure ErrorResponse where
  timestamp : String
  status : Nat
  error : String
  message : String
  path : String
deriving DecidableEq, Repr

/-- An axios `AxiosResponse<T>`: HTTP status, body, and raw headers.  Raw
header values may be absent (`null`/`undefined` in the source). -/
structure AxiosResponse (T : Type) where
  status : Nat
  data : T
  headers : List (String × Option String)
deriving DecidableEq, Repr

/-- An axios `AxiosError`: `response` is present when the server replied with
a non-2xx status (its body is read back as an `ErrorResponse`); `request` is
true when the request was sent on the wire (so `response = none ∧ request`
is a network error); `message` and `configUrl` model `error.message` and
`error.config?.url`. -/
structure AxiosError where
  response : Option (AxiosResponse ErrorResponse)
  request : Bool
  message : Option String
  configUrl : Option String
deriving DecidableEq, Repr

/-- The `ApiResponse<T>` envelope of `base-builder.ts`: status, data, headers. -/
structure ApiResponse (T : Type) where
  status : Nat
  data : T
  headers : List (String × Option String)
deriving DecidableEq, Repr

/-- The `BuilderResponse<T>` envelope of `enhanced-types.ts` (header values
already stringified by `convertHeaders`). -/
structure BuilderResponse (T : Type) where
  status : Nat
  data : T
  headers : List (String × String)
deriving DecidableEq, Repr

/-- `BaseBuilder.shouldRetry`: retry on network errors (no response) or on a
5xx status: `!error.response || (status >= 500 && status < 600)`. -/
def shouldRetry (error : AxiosError) : Bool :=
  match error.response with
  | none => true
  | some r => decide (500 ≤ r.status) && decide (r.status < 600)

/-- `BaseBuilder.handleError`: classify a terminal `AxiosError` into the
uniform envelope.  `now` stands for `new Date().toISOString()`. -/
def handleError (now : String) (error : AxiosError) : ApiResponse ErrorResponse :=
  match error.response with
  | some r => ⟨r.status, r.data, r.headers⟩
  | none =>
    if error.request then
      ⟨0, ⟨now, 0, "Network Error", "No response received from server",
           error.configUrl.getD "unknown"⟩, []⟩
    else
      ⟨0, ⟨now, 0, "Request Error", error.message.getD "Unknown error occurred",
           error.configUrl.getD "unknown"⟩, []⟩

/-- Observable trace of one run of the `executeWithRetry` loop: how many times
`requestFn` was invoked, how many delay sleeps were awaited, and the final
outcome (last response or last error). -/
structure ExecTrace (T : Type) where
  invocations : Nat
  sleeps : Nat
  outcome : Except AxiosError (AxiosResponse T)
deriving Repr

/-- The `for (attempt = 0; attempt <= retries; attempt++)` loop body of
`BaseBuilder.executeWithRetry`.  `attempt` is the current attempt index and
`budget = retries - attempt` is the remaining retry budget, so the source
guard `attempt < this.retries` is exactly `budget ≠ 0`.  On success the loop
returns; on a failure with remaining budget and a retryable error it sleeps
once and continues; otherwise it breaks with the error as `lastError`. -/
def execLoop {T : Type} (requestFn : Nat → Except AxiosError (AxiosResponse T)) :
    Nat → Nat → ExecTrace T
  | attempt, budget =>
    match requestFn attempt with
    | .ok response => ⟨1, 0, .ok response⟩
    | .error e =>
      match budget with
      | 0 => ⟨1, 0, .error e⟩
      | b + 1 =>
        if shouldRetry e then
          let rest := execLoop requestFn (attempt + 1) b
          ⟨rest.invocations + 1, rest.sleeps + 1, rest.outcome⟩
        else
          ⟨1, 0, .error e⟩

/-- `BaseBuilder.executeWithRetry`: run the loop from attempt 0 with the
configured retry budget; on a final success return the response envelope, on
a final error return `handleError`.  The success body is injected with
`Sum.inl` and the error body with `Sum.inr`, embedding the source type
`ApiResponse<T | ErrorResponse>`. -/
def executeWithRetry {T : Type} (requestFn : Nat → Except AxiosError (AxiosResponse T))
    (retries : Nat) (now : String) : ApiResponse (T ⊕ ErrorResponse) :=
  match (execLoop requestFn 0 retries).outcome with
  | .ok response => ⟨response.status, .inl response.data, response.headers⟩
  | .error e =>
    let h := handleError now e
    ⟨h.status, .inr h.data, h.headers⟩

/-- `ApiGateway.convertHeaders`: stringify header values, skipping entries
whose value is `undefined`/`null`. -/
def convertHeaders (axiosHeaders : List (String × Option String)) : List (String × String) :=
  axiosHeaders.filterMap fun p =>
    match p.2 with
    | some v => some (p.1, v)
    | none => none

/-- `ApiGateway.convertAxiosResponse`: copy status/data, convert headers. -/
def convertAxiosResponse {T : Type} (axiosResponse : AxiosResponse T) : BuilderResponse T :=
  ⟨axiosResponse.status, axiosResponse.data, convertHeaders axiosResponse.headers⟩

/-- `ApiGateway.handleAxiosError`: same three-way classification as
`BaseBuilder.handleError`, but producing a `BuilderResponse` with converted
headers. -/
def handleAxiosError (now : String) (error : AxiosError) : BuilderResponse ErrorResponse :=
  match error.response with
  | some r => ⟨r.status, r.data, convertHeaders r.headers⟩
  | none =>
    if error.request then
      ⟨0, ⟨now, 0, "Network Error", "No response received from server",
           error.configUrl.getD "unknown"⟩, []⟩
    else
      ⟨0, ⟨now, 0, "Request Error", error.message.getD "Unknown error occurred",
           error.configUrl.getD "unknown"⟩, []⟩

/-- Shared shape of every `...Compat` adapter method of `ApiGateway`:
`try { return convertAxiosResponse(await underlying) } catch (e) { return handleAxiosError(e) }`.
The result type is still `Except AxiosError _` so that "never rejects" is the
provable statement that the result is always `.ok _`. -/
def compatAdapter {T : Type} (underlying : Except AxiosError (AxiosResponse T))
    (now : String) : Except AxiosError (BuilderResponse (T ⊕ ErrorResponse)) :=
  match underlying with
  | .ok r => .ok ⟨r.status, .inl r.data, convertHeaders r.headers⟩
  | .error e =>
    let h := handleAxiosError now e
    .ok ⟨h.status, .inr h.data, h.headers⟩

/-- Generated `UserResponse` (OpenAPI): optional id, name, email, bio. -/
structure UserResponse where
  id : Option Nat
  name : Option String
  email : Option String
  bio : Option String
deriving DecidableEq, Repr

/-- Generated `UserCreateRequest` (OpenAPI): name, email, optional bio. -/
structure UserCreateRequest where
  name : String
  email : String
  bio : Option String
deriving DecidableEq, Repr

/-- `HealthResponse` from `enhanced-types.ts`, component map elided to its
status labels. -/
structure HealthResponse where
  status : String
  components : List (String × String)
deriving DecidableEq, Repr

/-- `ApiGateway.getAllUsersCompat`, with the underlying
`this.users.getAllUsers()` call abstracted by its outcome. -/
def getAllUsersCompat (underlying : Except AxiosError (AxiosResponse (List UserResponse)))
    (now : String) : Except AxiosError (BuilderResponse (List UserResponse ⊕ ErrorResponse)) :=
  compatAdapter underlying now

/-- `ApiGateway.getUserByIdCompat`. -/
def getUserByIdCompat (id : Nat) (underlying : Except AxiosError (AxiosResponse UserResponse))
    (now : String) : Except AxiosError (BuilderResponse (UserResponse ⊕ ErrorResponse)) :=
  compatAdapter underlying now

/-- `ApiGateway.createUserCompat`. -/
def createUserCompat (userData : UserCreateRequest)
    (underlying : Except AxiosError (AxiosResponse UserResponse))
    (now : String) : Except AxiosError (BuilderResponse (UserResponse ⊕ ErrorResponse)) :=
  compatAdapter underlying now

/-- `ApiGateway.updateUserCompat`. -/
def updateUserCompat (id : Nat) (userData : UserCreateRequest)
    (underlying : Except AxiosError (AxiosResponse UserResponse))
    (now : String) : Except AxiosError (BuilderResponse (UserResponse ⊕ ErrorResponse)) :=
  compatAdapter underlying now

/-- `ApiGateway.deleteUserCompat`. -/
def deleteUserCompat (id : Nat) (underlying : Except AxiosError (AxiosResponse Unit))
    (now : String) : Except AxiosError (BuilderResponse (Unit ⊕ ErrorResponse)) :=
  compatAdapter underlying now

/-- `ApiGateway.getHealthCompat`. -/
def getHealthCompat (underlying : Except AxiosError (AxiosResponse HealthResponse))
    (now : String) : Except AxiosError (BuilderResponse (HealthResponse ⊕ ErrorResponse)) :=
  compatAdapter underlying now

/-- Outcome of one evaluation of the poller predicate: `.error ()` models a
thrown error, `.ok none` a resolved falsy value, `.ok (some v)` a resolved
truthy value `v` (JavaScript truthiness of the `if (result)` test). -/
def isTruthy {T : Type} : Except Unit (Option T) → Bool
  | .ok (some _) => true
  | _ => false

/-- Message of the failure thrown by `TestHelperBuilder.waitForCondition` on
timeout. -/
def timeoutMessage (description : String) (timeout : Nat) : String :=
  "Timeout waiting for " ++ description ++ " after " ++ toString timeout ++ "ms"

/-- The `while (Date.now() - startTime < timeout)` loop of
`TestHelperBuilder.waitForCondition`, in the discrete time model: attempt `k`
(0-based) is evaluated at elapsed time `k * interval`, the predicate itself
takes no time, and each `sleep(interval)` advances time by `interval`.
The result pairs the outcome (`.ok` first truthy value, `.error` timeout
message) with the elapsed time at which the loop resolved.  `fuel` is a
structural bound on the number of iterations; `waitForCondition` supplies
`timeout + 1`, which is never exhausted when `interval > 0` because the loop
guard fails once `k * interval ≥ timeout`. -/
def waitLoop {T : Type} (condition : Nat → Except Unit (Option T))
    (timeout interval : Nat) (description : String) :
    Nat → Nat → Except String T × Nat
  | 0, k => (.error (timeoutMessage description timeout), k * interval)
  | fuel + 1, k =>
    if k * interval < timeout then
      match condition k with
      | .ok (some v) => (.ok v, k * interval)
      | _ => waitLoop condition timeout interval description fuel (k + 1)
    else
      (.error (timeoutMessage description timeout), k * interval)

/-- `TestHelperBuilder.waitForCondition`: run the poll loop from attempt 0;
`.ok v` is the first truthy result, `.error msg` the thrown timeout failure. -/
def waitForCondition {T : Type} (condition : Nat → Except Unit (Option T))
    (timeout interval : Nat) (description : String) : Except String T :=
  (waitLoop condition timeout interval description (timeout + 1) 0).1

/-- Result shape of `TestHelperBuilder.cleanupTestUsers`. -/
structure CleanupResult where
  deleted : List Nat
  failed : List Nat
deriving DecidableEq, Repr

/-- Predicate deciding which list an id lands in: its delete request resolved
with a 204 envelope.  `del id` is the outcome of
`executeWithRetry(() => axios.delete(...))` for that id (`.error` models a
rejection, caught by the per-id `try/catch`). -/
def deleteSucceeded {D : Type} (del : Nat → Except Unit (ApiResponse D)) (id : Nat) : Bool :=
  match del id with
  | .ok response => response.status == 204
  | .error _ => false

/-- `TestHelperBuilder.cleanupTestUsers`: issue one delete per id, record the
id under `deleted` when the envelope status is 204 and under `failed`
otherwise (non-204 envelope or thrown error); `Promise.allSettled` awaits all
of them, so one failure never suppresses the other requests.  The source
pushes ids in completion order; the model lists them in input order, which is
equivalent up to reordering (each id is classified independently by its own
outcome). -/
def cleanupTestUsers {D : Type} (del : Nat → Except Unit (ApiResponse D))
    (userIds : List Nat) : CleanupResult :=
  ⟨userIds.filter (fun id => deleteSucceeded del id),
   userIds.filter (fun id => !deleteSucceeded del id)⟩

/-- A user tracked by `CustomWorld.addCreatedUser`: its (optional) server id
and the `_testMetadata.shouldCleanup` flag. -/
structure TrackedUser where
  id : Option Nat
  shouldCleanup : Bool
deriving DecidableEq, Repr

/-- JavaScript truthiness of `user.id` in the cleanup filter: present and
non-zero. -/
def idTruthy (user : TrackedUser) : Bool :=
  match user.id with
  | some i => i != 0
  | none => false

/-- Observable effect of one `CustomWorld.cleanupCreatedUsers` run: the
tracked list afterwards, the ids passed to `cleanupTestUsers` (none when no
delete request was issued), and the partition it returned. -/
structure CleanupRun where
  createdUsers : List TrackedUser
  calledWith : Option (List Nat)
  result : Option CleanupResult
deriving DecidableEq, Repr

/-- `CustomWorld.cleanupCreatedUsers`: return immediately when nothing is
tracked; otherwise collect the ids of tracked users eligible for cleanup,
call `cleanupTestUsers` when that list is non-empty, and clear the tracked
list. -/
def cleanupCreatedUsers {D : Type} (del : Nat → Except Unit (ApiResponse D))
    (createdUsers : List TrackedUser) : CleanupRun :=
  if createdUsers.length = 0 then
    ⟨createdUsers, none, none⟩
  else
    let userIds := (createdUsers.filter fun u => idTruthy u && u.shouldCleanup).filterMap (·.id)
    if userIds.length > 0 then
      ⟨[], some userIds, some (cleanupTestUsers del userIds)⟩
    else
      ⟨[], none, none⟩

namespace demo

/-- `ProfileValidationRequest` dto: name, email, bio. -/
structure ProfileValidationRequest where
  name : String
  email : String
  bio : Option String
deriving DecidableEq, Repr

/-- `ProfileValidationResponse` dto: valid flag, message, risk score. -/
structure ProfileValidationResponse where
  valid : Bool
  message : String
  riskScore : String
deriving DecidableEq, Repr

/-- Outcome of the WebClient call made by
`ProfileValidationService.validateProfile`: a decoded success body, a
`WebClientResponseException` carrying the error status and response body, or
any other failure (timeout, connection refused, ...). -/
inductive WebCallOutcome where
  | success (response : ProfileValidationResponse)
  | httpError (status : Nat) (body : String)
  | failure (message : String)
deriving DecidableEq, Repr

/-- `ProfileValidationService.handleWebClientError`: a 4xx status becomes an
ordinary rejection response (valid=false, "Profile validation rejected: "
prefix, riskScore HIGH); any other status raises `ProfileValidationException`
(modelled as `.error` with the exception message). -/
def handleWebClientError (status : Nat) (body : String) :
    Except String ProfileValidationResponse :=
  if 400 ≤ status ∧ status < 500 then
    .ok ⟨false, "Profile validation rejected: " ++ body, "HIGH"⟩
  else
    .error ("Profile validation service error: " ++ toString status)

/-- `ProfileValidationService.handleGenericError`: always raises
`ProfileValidationException("Profile validation service temporarily unavailable")`. -/
def handleGenericError (message : String) : Except String ProfileValidationResponse :=
  .error "Profile validation service temporarily unavailable"

/-- `ProfileValidationService.validateProfile`, abstracted over the WebClient
call outcome: success bodies pass through, `WebClientResponseException` goes
to `handleWebClientError`, every other error to `handleGenericError`. -/
def validateProfile (outcome : WebCallOutcome) : Except String ProfileValidationResponse :=
  match outcome with
  | .success response => .ok response
  | .httpError status body => handleWebClientError status body
  | .failure message => handleGenericError message

/-- JPA `User` entity: id is absent until the entity is saved. -/
structure User where
  id : Option Nat
  name : String
  email : String
  bio : Option String
deriving DecidableEq, Repr

/-- `UserCreateRequest` dto of the service. -/
structure UserCreateRequest where
  name : String
  email : String
  bio : Option String
deriving DecidableEq, Repr

/-- `UserResponse` dto: built from a `User` entity. -/
structure UserResponse where
  id : Option Nat
  name : String
  email : String
  bio : Option String
deriving DecidableEq, Repr

/-- `new UserResponse(user)`. -/
def UserResponse.ofUser (user : User) : UserResponse :=
  ⟨user.id, user.name, user.email, user.bio⟩

/-- Modelled from the spec: the Spring Data `UserRepository` is not under
`src/`, so its state is modelled as the list of persisted users plus the next
server-assigned id ("server-assigned numeric id" per the external-interface
contract). -/
structure UserRepository where
  users : List User
  nextId : Nat
deriving DecidableEq, Repr

/-- Modelled from the spec: `userRepository.existsByEmail(email)` — some
persisted user already has this email (duplicate-unique-key contract). -/
def existsByEmail (repo : UserRepository) (email : String) : Bool :=
  repo.users.any fun u => u.email == email

/-- Modelled from the spec: `userRepository.findById(id)`. -/
def findById (repo : UserRepository) (id : Nat) : Option User :=
  repo.users.find? fun u => u.id == some id

/-- Modelled from the spec: `userRepository.save(user)` — insert with a fresh
server-assigned id when the entity has none, otherwise update in place. -/
def save (repo : UserRepository) (user : User) : User × UserRepository :=
  match user.id with
  | none =>
    let saved : User := { user with id := some repo.nextId }
    (saved, ⟨repo.users ++ [saved], repo.nextId + 1⟩)
  | some i =>
    (user, ⟨repo.users.map (fun u => if u.id == some i then user else u), repo.nextId⟩)

/-- Exceptions thrown by `UserService` (each carries its message). -/
inductive ServiceError where
  | userNotFound (message : String)
  | emailAlreadyExists (message : String)
  | profileValidation (message : String)
deriving DecidableEq, Repr

/-- Modelled from the spec: the HTTP status each service exception is
surfaced as (the exception handler is not under `src/`): not-found 404,
duplicate email 409, profile validation and service unavailable 400. -/
def statusOf : ServiceError → Nat
  | .userNotFound _ => 404
  | .emailAlreadyExists _ => 409
  | .profileValidation _ => 400

/-- Calls `UserService` makes that matter for ordering: the external
validation call and the repository save. -/
inductive ServiceEvent where
  | validateCall
  | saveCall
deriving DecidableEq, Repr

/-- Result of one `UserService` operation: the returned value or thrown
exception, the repository state afterwards, and the trace of external
validation / save calls in order. -/
structure ServiceResult (A : Type) where
  result : Except ServiceError A
  repo : UserRepository
  events : List ServiceEvent
deriving Repr

/-- `UserService.createUser`: reject a duplicate email, then validate the
profile with the external service (propagating its
`ProfileValidationException` and rejecting a `valid=false` result), and only
then save.  `validate` abstracts `profileValidationService.validateProfile`
(`.error msg` is a thrown `ProfileValidationException`). -/
def createUser (validate : ProfileValidationRequest → Except String ProfileValidationResponse)
    (repo : UserRepository) (request : UserCreateRequest) : ServiceResult UserResponse :=
  if existsByEmail repo request.email then
    ⟨.error (.emailAlreadyExists ("Email " ++ request.email ++ " already exists")), repo, []⟩
  else
    match validate ⟨request.name, request.email, request.bio⟩ with
    | .error msg => ⟨.error (.profileValidation msg), repo, [.validateCall]⟩
    | .ok validationResponse =>
      if !validationResponse.valid then
        ⟨.error (.profileValidation
            ("Profile validation failed: " ++ validationResponse.message)),
         repo, [.validateCall]⟩
      else
        let saved := save repo ⟨none, request.name, request.email, request.bio⟩
        ⟨.ok (UserResponse.ofUser saved.1), saved.2, [.validateCall, .saveCall]⟩

/-- `UserService.updateUser`: look the user up (404 when absent), reject a
changed email that some user already has, then validate the updated profile
with the external service, and only then save the mutated entity. -/
def updateUser (validate : ProfileValidationRequest → Except String ProfileValidationResponse)
    (repo : UserRepository) (id : Nat) (request : UserCreateRequest) :
    ServiceResult UserResponse :=
  match findById repo id with
  | none => ⟨.error (.userNotFound ("User with id " ++ toString id ++ " not found")), repo, []⟩
  | some existingUser =>
    if !(existingUser.email == request.email) && existsByEmail repo request.email then
      ⟨.error (.emailAlreadyExists ("Email " ++ request.email ++ " already exists")), repo, []⟩
    else
      match validate ⟨request.name, request.email, request.bio⟩ with
      | .error msg => ⟨.error (.profileValidation msg), repo, [.validateCall]⟩
      | .ok validationResponse =>
        if !validationResponse.valid then
          ⟨.error (.profileValidation
              ("Profile validation failed: " ++ validationResponse.message)),
           repo, [.validateCall]⟩
        else
          let updated : User :=
            { existingUser with name := request.name, email := request.email, bio := request.bio }
          let saved := save repo updated
          ⟨.ok (UserResponse.ofUser saved.1), saved.2, [.validateCall, .saveCall]⟩

end demo

section HelperLemmas

theorem execLoop_invocations_le {T : Type}
    (requestFn : Nat → Except AxiosError (AxiosResponse T)) (budget : Nat) :
    ∀ attempt, (execLoop requestFn attempt budget).invocations ≤ budget + 1 := by
  induction budget with
  | zero =>
    intro attempt
    rw [execLoop]
    cases requestFn attempt <;> simp
  | succ b ih =>
    intro attempt
    rw [execLoop]
    cases h : requestFn attempt with
    | ok r => simp
    | error e =>
      by_cases hr : shouldRetry e
      · simp only [hr, if_true]
        have := ih (attempt + 1)
        simpa using Nat.succ_le_succ this
      · simp [hr]

theorem execLoop_sleeps {T : Type}
    (requestFn : Nat → Except AxiosError (AxiosResponse T)) (budget : Nat) :
    ∀ attempt, (execLoop requestFn attempt budget).sleeps + 1 =
      (execLoop requestFn attempt budget).invocations := by
  induction budget with
  | zero =>
    intro attempt
    rw [execLoop]
    cases requestFn attempt <;> simp
  | succ b ih =>
    intro attempt
    rw [execLoop]
    cases h : requestFn attempt with
    | ok r => simp
    | error e =>
      by_cases hr : shouldRetry e
      · simp only [hr, if_true]
        have := ih (attempt + 1)
        simpa using this
      · simp [hr]

theorem execLoop_mid_retryable {T : Type}
    (requestFn : Nat → Except AxiosError (AxiosResponse T)) (budget : Nat) :
    ∀ attempt i, i + 1 < (execLoop requestFn attempt budget).invocations →
      ∃ e, requestFn (attempt + i) = .error e ∧ shouldRetry e = true := by
  induction budget with
  | zero =>
    intro attempt i hi
    rw [execLoop] at hi
    cases h : requestFn attempt <;> rw [h] at hi <;> simp at hi <;> omega
  | succ b ih =>
    intro attempt i hi
    rw [execLoop] at hi
    cases h : requestFn attempt with
    | ok r => rw [h] at hi; simp at hi
    | error e =>
      rw [h] at hi
      by_cases hr : shouldRetry e
      · simp only [hr, if_true] at hi
        match i with
        | 0 => exact ⟨e, by simpa using h, hr⟩
        | j + 1 =>
          have := ih (attempt + 1) j (by omega)
          simpa [Nat.add_assoc, Nat.add_comm 1 j] using this
      · simp [hr] at hi

theorem execLoop_nonretryable {T : Type}
    (requestFn : Nat → Except AxiosError (AxiosResponse T)) (budget attempt : Nat)
    (e : AxiosError) (h : requestFn attempt = .error e) (hr : shouldRetry e = false) :
    execLoop requestFn attempt budget = ⟨1, 0, .error e⟩ := by
  cases budget with
  | zero => rw [execLoop, h]
  | succ b => rw [execLoop, h]; simp [hr]

end HelperLemmas

/-- C1: `executeWithRetry` invokes the operation at most `retries + 1` times;
between consecutive attempts (and only there) it awaits the configured delay,
every attempt before the last failed with a retryable error (no response, or
status in [500,600)), and a first failure that is non-retryable ends the loop
after exactly one invocation with no delay consumed. -/
theorem executeWithRetry_retry_policy {T : Type}
    (requestFn : Nat → Except AxiosError (AxiosResponse T)) (retries : Nat) :
    (execLoop requestFn 0 retries).invocations ≤ retries + 1 ∧
    (execLoop requestFn 0 retries).sleeps + 1 = (execLoop requestFn 0 retries).invocations ∧
    (∀ i, i + 1 < (execLoop requestFn 0 retries).invocations →
      ∃ e, requestFn i = .error e ∧ shouldRetry e = true) ∧
    (∀ e, requestFn 0 = .error e → shouldRetry e = false →
      execLoop requestFn 0 retries = ⟨1, 0, .error e⟩) := by
  refine ⟨execLoop_invocations_le requestFn retries 0,
          execLoop_sleeps requestFn retries 0, ?_, ?_⟩
  · intro i hi
    simpa using execLoop_mid_retryable requestFn retries 0 i hi
  · intro e h hr
    exact execLoop_nonretryable requestFn retries 0 e h hr

/-- A 404 error response as thrown by axios for `GET /api/users/1`. -/
def err404 : AxiosError :=
  ⟨some ⟨404, ⟨"2024-01-01T00:00:00.000Z", 404, "Not Found",
    "User with id 1 not found", "/api/users/1"⟩, []⟩, true, none, some "/api/users/1"⟩

/-- An operation whose every attempt fails with the 404 error. -/
def alwaysNotFound : Nat → Except AxiosError (AxiosResponse Unit) :=
  fun _ => .error err404

/-- Witness for C1: with retry budget 5 and a first failure that is a 404
(non-retryable), the loop stops after exactly one invocation and no delay. -/
theorem executeWithRetry_retry_policy_witness :
    alwaysNotFound 0 = .error err404 ∧ shouldRetry err404 = false ∧
    execLoop alwaysNotFound 0 5 = ⟨1, 0, .error err404⟩ :=
  ⟨rfl, rfl, (executeWithRetry_retry_policy alwaysNotFound 5).2.2.2 err404 rfl rfl⟩

/-- C3: whatever the outcome of the underlying HTTP call, `executeWithRetry`
and each compatibility-adapter method resolve with a `{status, data, headers}`
envelope and never reject (the adapter results are always `.ok _`, and
`executeWithRetry` always produces an envelope value). -/
theorem compat_adapters_never_reject (now : String)
    (u1 : Except AxiosError (AxiosResponse (List UserResponse)))
    (u2 u3 u4 : Except AxiosError (AxiosResponse UserResponse))
    (u5 : Except AxiosError (AxiosResponse Unit))
    (u6 : Except AxiosError (AxiosResponse HealthResponse))
    (id1 id2 id3 : Nat) (body1 body2 : UserCreateRequest)
    {T : Type} (requestFn : Nat → Except AxiosError (AxiosResponse T)) (retries : Nat) :
    (∃ env, getAllUsersCompat u1 now = .ok env) ∧
    (∃ env, getUserByIdCompat id1 u2 now = .ok env) ∧
    (∃ env, createUserCompat body1 u3 now = .ok env) ∧
    (∃ env, updateUserCompat id2 body2 u4 now = .ok env) ∧
    (∃ env, deleteUserCompat id3 u5 now = .ok env) ∧
    (∃ env, getHealthCompat u6 now = .ok env) ∧
    (∃ s d h, executeWithRetry requestFn retries now = ⟨s, d, h⟩) := by
  refine ⟨?_, ?_, ?_, ?_, ?_, ?_, ?_⟩
  · cases u1 <;> exact ⟨_, rfl⟩
  · cases u2 <;> exact ⟨_, rfl⟩
  · cases u3 <;> exact ⟨_, rfl⟩
  · cases u4 <;> exact ⟨_, rfl⟩
  · cases u5 <;> exact ⟨_, rfl⟩
  · cases u6 <;> exact ⟨_, rfl⟩
  · exact ⟨_, _, _, rfl⟩

/-- C4: both error-conversion paths (`BaseBuilder.handleError` and
`ApiGateway.handleAxiosError`) produce status 0 exactly when no HTTP response
was received; in that case the data is the synthesized error payload with
error "Network Error" (request sent, no response) or "Request Error" (request
not sent); when the server did respond, the status and body are preserved
unchanged.  `hHttp` records that a received HTTP response has a non-zero
status. -/
theorem handleError_classification (now : String) (e : AxiosError)
    (hHttp : ∀ r, e.response = some r → 0 < r.status) :
    ((handleError now e).status = 0 ↔ e.response = none) ∧
    ((handleAxiosError now e).status = 0 ↔ e.response = none) ∧
    (e.request = true → e.response = none →
      handleError now e =
        ⟨0, ⟨now, 0, "Network Error", "No response received from server",
             e.configUrl.getD "unknown"⟩, []⟩ ∧
      handleAxiosError now e =
        ⟨0, ⟨now, 0, "Network Error", "No response received from server",
             e.configUrl.getD "unknown"⟩, []⟩) ∧
    (e.request = false → e.response = none →
      handleError now e =
        ⟨0, ⟨now, 0, "Request Error", e.message.getD "Unknown error occurred",
             e.configUrl.getD "unknown"⟩, []⟩ ∧
      handleAxiosError now e =
        ⟨0, ⟨now, 0, "Request Error", e.message.getD "Unknown error occurred",
             e.configUrl.getD "unknown"⟩, []⟩) ∧
    (∀ r, e.response = some r →
      handleError now e = ⟨r.status, r.data, r.headers⟩ ∧
      (handleAxiosError now e).status = r.status ∧
      (handleAxiosError now e).data = r.data) := by
  cases hresp : e.response with
  | none =>
    cases hreq : e.request <;>
      refine ⟨?_, ?_, ?_, ?_, ?_⟩ <;>
        simp [handleError, handleAxiosError, hresp, hreq]
  | some r =>
    have hs : 0 < r.status := hHttp r hresp
    refine ⟨?_, ?_, ?_, ?_, ?_⟩ <;>
      simp [handleError, handleAxiosError, hresp] <;> omega

/-- A network error: the request was sent but no response ever arrived. -/
def eNet : AxiosError := ⟨none, true, none, some "/api/users"⟩

/-- Witness for C4: the network-error case evaluated concretely. -/
theorem handleError_classification_witness :
    (∀ r, eNet.response = some r → 0 < r.status) ∧
    ((handleError "2024-01-01T00:00:00.000Z" eNet).status = 0 ↔ eNet.response = none) :=
  ⟨fun r h => by simp [eNet] at h,
   (handleError_classification "2024-01-01T00:00:00.000Z" eNet
     (fun r h => by simp [eNet] at h)).1⟩

section PollerLemmas

theorem waitLoop_first_truthy {T : Type} (condition : Nat → Except Unit (Option T))
    (timeout interval : Nat) (description : String) (kt : Nat) (v : T)
    (hkt : kt * interval < timeout) (hv : condition kt = .ok (some v)) :
    ∀ fuel k, k ≤ kt → kt + 1 ≤ fuel + k →
      (∀ j, k ≤ j → j < kt → isTruthy (condition j) = false) →
      waitLoop condition timeout interval description fuel k = (.ok v, kt * interval) := by
  intro fuel
  induction fuel with
  | zero => intro k hk hf _; omega
  | succ f ih =>
    intro k hk hf hprev
    rw [waitLoop]
    have hkT : k * interval < timeout :=
      lt_of_le_of_lt (Nat.mul_le_mul_right interval hk) hkt
    rw [if_pos hkT]
    rcases Nat.lt_or_ge k kt with hlt | hge
    · have hnt := hprev k le_rfl hlt
      cases hc : condition k with
      | error u =>
        exact ih (k + 1) hlt (by omega) (fun j hj1 hj2 => hprev j (by omega) hj2)
      | ok o =>
        cases o with
        | none =>
          exact ih (k + 1) hlt (by omega) (fun j hj1 hj2 => hprev j (by omega) hj2)
        | some w => rw [hc] at hnt; simp [isTruthy] at hnt
    · have hk2 : k = kt := le_antisymm hk hge
      subst hk2
      rw [hv]

theorem waitLoop_never_truthy {T : Type} (condition : Nat → Except Unit (Option T))
    (timeout interval : Nat) (description : String) (hI : 0 < interval)
    (hnever : ∀ j, j * interval < timeout → isTruthy (condition j) = false) :
    ∀ fuel k, timeout ≤ fuel + k →
      ∃ elapsed, waitLoop condition timeout interval description fuel k =
        (.error (timeoutMessage description timeout), elapsed) ∧ timeout ≤ elapsed := by
  intro fuel
  induction fuel with
  | zero =>
    intro k hf
    refine ⟨k * interval, by rw [waitLoop], ?_⟩
    calc timeout ≤ k := by omega
    _ ≤ k * interval := Nat.le_mul_of_pos_right k hI
  | succ f ih =>
    intro k hf
    rw [waitLoop]
    by_cases hkT : k * interval < timeout
    · rw [if_pos hkT]
      have hnt := hnever k hkT
      cases hc : condition k with
      | error u => exact ih (k + 1) (by omega)
      | ok o =>
        cases o with
        | none => exact ih (k + 1) (by omega)
        | some w => rw [hc] at hnt; simp [isTruthy] at hnt
    · rw [if_neg hkT]
      exact ⟨k * interval, rfl, by omega⟩

end PollerLemmas

/-- C2: with a positive poll interval, `waitForCondition` returns the first
truthy result a poll attempt produces — earlier attempts that threw or
returned a falsy value are swallowed and polling continues — and when no
attempt inside the timeout window produces a truthy result, it throws the
timeout failure whose message names the awaited condition description. -/
theorem waitForCondition_spec {T : Type} (condition : Nat → Except Unit (Option T))
    (timeout interval : Nat) (description : String) (hI : 0 < interval) :
    (∀ k v, k * interval < timeout → condition k = .ok (some v) →
      (∀ j, j < k → isTruthy (condition j) = false) →
      waitForCondition condition timeout interval description = .ok v) ∧
    ((∀ k, k * interval < timeout → isTruthy (condition k) = false) →
      waitForCondition condition timeout interval description =
        .error (timeoutMessage description timeout)) := by
  constructor
  · intro k v hkT hv hprev
    have hk : k ≤ timeout := by
      have : k ≤ k * interval := Nat.le_mul_of_pos_right k hI
      omega
    have := waitLoop_first_truthy condition timeout interval description k v hkT hv
      (timeout + 1) 0 (Nat.zero_le k) (by omega) (fun j _ hj2 => hprev j hj2)
    unfold waitForCondition
    rw [this]
  · intro hnever
    obtain ⟨elapsed, heq, _⟩ := waitLoop_never_truthy condition timeout interval description
      hI hnever (timeout + 1) 0 (by omega)
    unfold waitForCondition
    rw [heq]

/-- A predicate whose first evaluation throws and whose second returns a
truthy value. -/
def condAfterError : Nat → Except Unit (Option Nat) :=
  fun k => if k = 0 then .error () else .ok (some 42)

/-- Witness for C2: polling every 1ms with a 5ms timeout, the thrown first
attempt is swallowed and the second attempt resolves the wait. -/
theorem waitForCondition_spec_witness :
    0 < 1 ∧ condAfterError 1 = .ok (some 42) ∧
    waitForCondition condAfterError 5 1 "user 1 to exist" = .ok 42 :=
  ⟨Nat.one_pos, rfl,
   (waitForCondition_spec condAfterError 5 1 "user 1 to exist" Nat.one_pos).1
     1 42 (by decide) rfl (by decide)⟩

/-- C8: in the discrete time model (each attempt takes no time, each sleep
takes exactly the interval), if the predicate first becomes truthy on an
attempt with 0-based index below `N` that falls inside the timeout window,
the poller resolves at elapsed time at most `N * interval`; if no attempt is
ever truthy, the timeout failure is raised at elapsed time at least the
configured timeout. -/
theorem waitForCondition_time_bound {T : Type} (condition : Nat → Except Unit (Option T))
    (timeout interval : Nat) (description : String) (hI : 0 < interval) (N : Nat) :
    (∀ k v, k < N → k * interval < timeout → condition k = .ok (some v) →
      (∀ j, j < k → isTruthy (condition j) = false) →
      (waitLoop condition timeout interval description (timeout + 1) 0).2 ≤ N * interval) ∧
    ((∀ k, isTruthy (condition k) = false) →
      waitForCondition condition timeout interval description =
        .error (timeoutMessage description timeout) ∧
      timeout ≤ (waitLoop condition timeout interval description (timeout + 1) 0).2) := by
  constructor
  · intro k v hkN hkT hv hprev
    have hk : k ≤ timeout := by
      have : k ≤ k * interval := Nat.le_mul_of_pos_right k hI
      omega
    have := waitLoop_first_truthy condition timeout interval description k v hkT hv
      (timeout + 1) 0 (Nat.zero_le k) (by omega) (fun j _ hj2 => hprev j hj2)
    rw [this]
    exact Nat.mul_le_mul_right interval (Nat.le_of_lt hkN)
  · intro hnever
    obtain ⟨elapsed, heq, hel⟩ := waitLoop_never_truthy condition timeout interval description
      hI (fun j _ => hnever j) (timeout + 1) 0 (by omega)
    constructor
    · unfold waitForCondition
      rw [heq]
    · rw [heq]
      exact hel

/-- A predicate that never returns a truthy value. -/
def condNever : Nat → Except Unit (Option Nat) :=
  fun _ => .ok none

/-- Witness for C8: a first truthy value on attempt index 1 (below N = 3)
resolves by 3ms; a never-truthy predicate times out no earlier than 5ms. -/
theorem waitForCondition_time_bound_witness :
    0 < 1 ∧ 1 < 3 ∧ condAfterError 1 = .ok (some 42) ∧
    (waitLoop condAfterError 5 1 "user 1 to exist" 6 0).2 ≤ 3 * 1 ∧
    5 ≤ (waitLoop condNever 5 1 "user count to be 2" 6 0).2 :=
  ⟨Nat.one_pos, by decide, rfl,
   (waitForCondition_time_bound condAfterError 5 1 "user 1 to exist" Nat.one_pos 3).1
     1 42 (by decide) (by decide) rfl (by decide),
   ((waitForCondition_time_bound condNever 5 1 "user count to be 2" Nat.one_pos 3).2
     (fun _ => rfl)).2⟩

theorem length_filter_complement {α : Type} (p : α → Bool) (l : List α) :
    (l.filter p).length + (l.filter fun a => !p a).length = l.length := by
  induction l with
  | nil => rfl
  | cons a t ih =>
    by_cases h : p a <;> simp [List.filter_cons, h] <;> omega

/-- C6: `cleanupTestUsers` classifies every tracked id into exactly one of the
two report lists — `deleted` exactly when its own delete request resolved
with a 204 envelope, `failed` otherwise (non-204 envelope or rejection) — and
the classification of an id depends only on the delete outcome of that id, so one
failure never drops another id from the report. -/
theorem cleanupTestUsers_partition {D : Type} (del : Nat → Except Unit (ApiResponse D))
    (userIds : List Nat) (id : Nat) (hid : id ∈ userIds) :
    (id ∈ (cleanupTestUsers del userIds).deleted ↔ deleteSucceeded del id = true) ∧
    (id ∈ (cleanupTestUsers del userIds).failed ↔ deleteSucceeded del id = false) ∧
    ¬(id ∈ (cleanupTestUsers del userIds).deleted ∧
      id ∈ (cleanupTestUsers del userIds).failed) ∧
    (cleanupTestUsers del userIds).deleted.length +
      (cleanupTestUsers del userIds).failed.length = userIds.length ∧
    (deleteSucceeded del id = true ↔ ∃ r, del id = .ok r ∧ r.status = 204) := by
  refine ⟨?_, ?_, ?_, ?_, ?_⟩
  · simp [cleanupTestUsers, List.mem_filter, hid]
  · simp [cleanupTestUsers, List.mem_filter, hid]
  · simp [cleanupTestUsers, List.mem_filter, hid]
  · exact length_filter_complement _ userIds
  · unfold deleteSucceeded
    cases h : del id with
    | ok r =>
      simp only [beq_iff_eq]
      constructor
      · intro hs; exact ⟨r, rfl, hs⟩
      · rintro ⟨r2, hr2, hs⟩
        cases hr2
        exact hs
    | error u =>
      simp

/-- Delete outcomes where id 1 resolves with a 204 envelope and every other
id is a rejection. -/
def delOnlyOne : Nat → Except Unit (ApiResponse Unit) :=
  fun id => if id = 1 then .ok ⟨204, (), []⟩ else .error ()

/-- Witness for C6: with ids `[1, 2]`, id 1 lands in `deleted` and the
partition is exact. -/
theorem cleanupTestUsers_partition_witness :
    (1 : Nat) ∈ [1, 2] ∧
    ((1 : Nat) ∈ (cleanupTestUsers delOnlyOne [1, 2]).deleted ↔
      deleteSucceeded delOnlyOne 1 = true) ∧
    (cleanupTestUsers delOnlyOne [1, 2]).deleted.length +
      (cleanupTestUsers delOnlyOne [1, 2]).failed.length = 2 :=
  ⟨by decide,
   (cleanupTestUsers_partition delOnlyOne [1, 2] 1 (by decide)).1,
   (cleanupTestUsers_partition delOnlyOne [1, 2] 1 (by decide)).2.2.2.1⟩

/-- C7: `cleanupCreatedUsers` always leaves the tracked-user list empty, so a
second run with nothing newly tracked returns immediately without issuing any
delete request (`calledWith = none`, no partition produced), and
`cleanupTestUsers` on the empty id list reports the empty partition. -/
theorem cleanupCreatedUsers_idempotent {D : Type} (del : Nat → Except Unit (ApiResponse D))
    (createdUsers : List TrackedUser) :
    (cleanupCreatedUsers del createdUsers).createdUsers = [] ∧
    cleanupCreatedUsers del (cleanupCreatedUsers del createdUsers).createdUsers =
      ⟨[], none, none⟩ ∧
    cleanupTestUsers del ([] : List Nat) = ⟨[], []⟩ := by
  have hempty : (cleanupCreatedUsers del createdUsers).createdUsers = [] := by
    unfold cleanupCreatedUsers
    by_cases h : createdUsers.length = 0
    · simp [h, List.length_eq_zero.mp h]
    · by_cases h2 :
        ((createdUsers.filter fun u => idTruthy u && u.shouldCleanup).filterMap (·.id)).length > 0
      · simp [h, h2]
      · simp [h, h2]
  refine ⟨hempty, ?_, rfl⟩
  rw [hempty]
  rfl

/-- C5: for both `UserService.createUser` and `UserService.updateUser`, the
external profile validation is called before any repository save (every call
trace is a prefix of `[validateCall, saveCall]`), and when the validation the
service performed returned `valid = false` the operation throws
`ProfileValidationException` (surfaced as a 400), leaving the stored user
state unchanged and never invoking the save. -/
theorem userService_validation_before_save
    (validate : demo.ProfileValidationRequest → Except String demo.ProfileValidationResponse)
    (repo : demo.UserRepository) (request : demo.UserCreateRequest) (id : Nat) :
    (∀ resp, validate ⟨request.name, request.email, request.bio⟩ = .ok resp →
      resp.valid = false →
      demo.ServiceEvent.validateCall ∈ (demo.createUser validate repo request).events →
      demo.createUser validate repo request =
        ⟨.error (.profileValidation ("Profile validation failed: " ++ resp.message)),
         repo, [.validateCall]⟩ ∧
      demo.statusOf (.profileValidation ("Profile validation failed: " ++ resp.message)) = 400) ∧
    (∀ resp, validate ⟨request.name, request.email, request.bio⟩ = .ok resp →
      resp.valid = false →
      demo.ServiceEvent.validateCall ∈ (demo.updateUser validate repo id request).events →
      demo.updateUser validate repo id request =
        ⟨.error (.profileValidation ("Profile validation failed: " ++ resp.message)),
         repo, [.validateCall]⟩) ∧
    ((demo.createUser validate repo request).events = [] ∨
     (demo.createUser validate repo request).events = [.validateCall] ∨
     (demo.createUser validate repo request).events = [.validateCall, .saveCall]) ∧
    ((demo.updateUser validate repo id request).events = [] ∨
     (demo.updateUser validate repo id request).events = [.validateCall] ∨
     (demo.updateUser validate repo id request).events = [.validateCall, .saveCall]) := by
  refine ⟨?_, ?_, ?_, ?_⟩
  · intro resp hv hvalid hmem
    unfold demo.createUser at hmem ⊢
    by_cases hex : demo.existsByEmail repo request.email
    · simp [hex] at hmem
    · refine ⟨?_, rfl⟩
      simp [hex, hv, hvalid]
  · intro resp hv hvalid hmem
    unfold demo.updateUser at hmem ⊢
    cases hfind : demo.findById repo id with
    | none => rw [hfind] at hmem; simp at hmem
    | some existingUser =>
      rw [hfind] at hmem
      by_cases hex :
          (!(existingUser.email == request.email) && demo.existsByEmail repo request.email) = true
      · simp [hex] at hmem
      · rw [Bool.not_eq_true] at hex
        simp [hex, hv, hvalid]
  · unfold demo.createUser
    by_cases hex : demo.existsByEmail repo request.email
    · simp [hex]
    · cases hv : validate ⟨request.name, request.email, request.bio⟩ with
      | error m => simp [hex]
      | ok resp =>
        by_cases hval : resp.valid
        · simp [hex, hval]
        · simp [hex, hval]
  · unfold demo.updateUser
    cases hfind : demo.findById repo id with
    | none => simp
    | some existingUser =>
      by_cases hex :
          (!(existingUser.email == request.email) && demo.existsByEmail repo request.email) = true
      · simp [hex]
      · rw [Bool.not_eq_true] at hex
        cases hv : validate ⟨request.name, request.email, request.bio⟩ with
        | error m => simp [hex]
        | ok resp =>
          by_cases hval : resp.valid
          · simp [hex, hval]
          · simp [hex, hval]

/-- A validator that rejects every profile. -/
def validateReject : demo.ProfileValidationRequest → Except String demo.ProfileValidationResponse :=
  fun _ => .ok ⟨false, "risk too high", "HIGH"⟩

/-- The empty repository. -/
def repo0 : demo.UserRepository := ⟨[], 1⟩

/-- A create request. -/
def reqJohn : demo.UserCreateRequest := ⟨"John Doe", "john@example.com", some "dev"⟩

/-- Witness for C5: a rejected validation on a fresh repository throws the
validation exception, changes nothing, and never saves. -/
theorem userService_validation_before_save_witness :
    validateReject ⟨reqJohn.name, reqJohn.email, reqJohn.bio⟩ =
      .ok ⟨false, "risk too high", "HIGH"⟩ ∧
    demo.createUser validateReject repo0 reqJohn =
      ⟨.error (.profileValidation "Profile validation failed: risk too high"),
       repo0, [.validateCall]⟩ ∧
    demo.statusOf (.profileValidation "Profile validation failed: risk too high") = 400 :=
  ⟨rfl,
   ((userService_validation_before_save validateReject repo0 reqJohn 1).1
     ⟨false, "risk too high", "HIGH"⟩ rfl rfl (by decide)).1,
   ((userService_validation_before_save validateReject repo0 reqJohn 1).1
     ⟨false, "risk too high", "HIGH"⟩ rfl rfl (by decide)).2⟩

/-- C9: for an existing user, `updateUser` throws the duplicate-email
conflict exactly when the requested email differs from the current
email and some persisted user already has the requested email; keeping the
current email never raises the conflict even though that email exists. -/
theorem updateUser_email_conflict
    (validate : demo.ProfileValidationRequest → Except String demo.ProfileValidationResponse)
    (repo : demo.UserRepository) (id : Nat) (request : demo.UserCreateRequest)
    (u : demo.User) (hFind : demo.findById repo id = some u) :
    ((∃ msg, (demo.updateUser validate repo id request).result =
        .error (.emailAlreadyExists msg)) ↔
      (¬u.email = request.email ∧ demo.existsByEmail repo request.email = true)) ∧
    (u.email = request.email → ∀ msg,
      (demo.updateUser validate repo id request).result ≠
        .error (.emailAlreadyExists msg)) := by
  have main : (∃ msg, (demo.updateUser validate repo id request).result =
      .error (.emailAlreadyExists msg)) ↔
      (¬u.email = request.email ∧ demo.existsByEmail repo request.email = true) := by
    unfold demo.updateUser
    rw [hFind]
    dsimp only
    by_cases hex : (!(u.email == request.email) && demo.existsByEmail repo request.email) = true
    · rw [if_pos hex]
      have hex2 : ¬u.email = request.email ∧ demo.existsByEmail repo request.email = true := by
        simpa using hex
      constructor
      · intro _
        exact hex2
      · intro _
        exact ⟨"Email " ++ request.email ++ " already exists", rfl⟩
    · rw [if_neg hex]
      have hex2 : ¬(¬u.email = request.email ∧ demo.existsByEmail repo request.email = true) := by
        intro ⟨h1, h2⟩
        exact hex (by simp [h2, beq_eq_false_iff_ne.mpr h1])
      simp only [hex2, iff_false]
      rintro ⟨msg, hmsg⟩
      cases hv : validate ⟨request.name, request.email, request.bio⟩ with
      | error m => rw [hv] at hmsg; simp at hmsg
      | ok resp =>
        rw [hv] at hmsg
        by_cases hval : resp.valid <;> simp [hval] at hmsg
  refine ⟨main, ?_⟩
  intro heq msg hcontra
  exact absurd heq (main.mp ⟨msg, hcontra⟩).1

/-- A validator that accepts every profile. -/
def validateOk : demo.ProfileValidationRequest → Except String demo.ProfileValidationResponse :=
  fun _ => .ok ⟨true, "Profile is valid", "LOW"⟩

/-- One persisted user. -/
def aliceUser : demo.User := ⟨some 1, "Alice", "alice@example.com", none⟩

/-- A one-user repository. -/
def repo1 : demo.UserRepository := ⟨[aliceUser], 2⟩

/-- An update request that keeps the current email of the user. -/
def reqSameEmail : demo.UserCreateRequest := ⟨"Alice Updated", "alice@example.com", some "bio"⟩

/-- Witness for C9: updating Alice while keeping her own email — which does
exist in the repository — raises no duplicate-email conflict. -/
theorem updateUser_email_conflict_witness :
    demo.findById repo1 1 = some aliceUser ∧
    aliceUser.email = reqSameEmail.email ∧
    demo.existsByEmail repo1 reqSameEmail.email = true ∧
    (demo.updateUser validateOk repo1 1 reqSameEmail).result ≠
      .error (.emailAlreadyExists "Email alice@example.com already exists") :=
  ⟨rfl, rfl, rfl,
   (updateUser_email_conflict validateOk repo1 1 reqSameEmail aliceUser rfl).2 rfl
     "Email alice@example.com already exists"⟩

/-- C10: a 4xx reply from the profile-validation dependency is converted by
`handleWebClientError` into an ordinary rejection — `valid = false`, a
message prefixed "Profile validation rejected: ", risk score HIGH — while a
non-4xx error status or a failure with no response raises
`ProfileValidationException` (the service-unavailable path), and a decoded
success body passes through untouched. -/
theorem profileValidation_4xx_rejection (status : Nat) (body : String)
    (h4 : 400 ≤ status) (h5 : status < 500) :
    demo.validateProfile (.httpError status body) =
      .ok ⟨false, "Profile validation rejected: " ++ body, "HIGH"⟩ ∧
    (∀ s2 b2, ¬(400 ≤ s2 ∧ s2 < 500) →
      ∃ msg, demo.validateProfile (.httpError s2 b2) = .error msg) ∧
    (∀ m, ∃ msg, demo.validateProfile (.failure m) = .error msg) ∧
    (∀ r, demo.validateProfile (.success r) = .ok r) := by
  refine ⟨?_, ?_, ?_, ?_⟩
  · simp [demo.validateProfile, demo.handleWebClientError, h4, h5]
  · intro s2 b2 hno
    refine ⟨"Profile validation service error: " ++ toString s2, ?_⟩
    simp [demo.validateProfile, demo.handleWebClientError, hno]
  · intro m
    exact ⟨"Profile validation service temporarily unavailable", rfl⟩
  · intro r
    rfl

/-- Witness for C10: a 422 reply with a body becomes an ordinary rejection
response. -/
theorem profileValidation_4xx_rejection_witness :
    400 ≤ 422 ∧ 422 < 500 ∧
    demo.validateProfile (.httpError 422 "bio too long") =
      .ok ⟨false, "Profile validation rejected: " ++ "bio too long", "HIGH"⟩ :=
  ⟨by omega, by omega,
   (profileValidation_4xx_rejection 422 "bio too long" (by omega) (by omega)).1⟩
